import Mathlib

set_option maxRecDepth 8000

/-
Verification of the classification decision engine of
src/classification.rs (automated process classification).

Modelling conventions, chosen once and used throughout:

* The dependency matrix `HashMap<(Activity, Activity), Dependency>` is
  modelled as a list of key/value pairs; the aggregation pass only reads
  the values (`matrix.values()`), so iteration order is the list order and
  order independence is proved explicitly (claim C8).
* The `f64` ratios `count as f64 / total_entries as f64` are modelled
  exactly as rationals `mkRat count total`, and the decimal threshold
  literals `0.80`, `0.10`, ... as `mkRat 80 100`, `mkRat 10 100`, ....
  For counts and totals of this size (totals at most a few thousand) the
  distance between any ratio and any threshold is either 0 or at least
  1/(100 * total), which is many orders of magnitude larger than one ulp
  of an f64 near 1, and f64 division is correctly rounded; hence every
  comparison in the source evaluates exactly as its rational counterpart.
* `HashSet<RuleCategory>` over the three-valued enum is modelled as the
  membership record `CatSet` (one Bool per category); `insert`, `len`,
  `contains`, `is_empty` map to the corresponding operations.  The source
  reads `iter().next().unwrap()` only when the set is a singleton, where
  every iteration order yields the unique element; `CatSet.next?` returns
  that element (and `none` models the unwrap panic on an empty set).
* Rust panics (`unwrap` on an empty iterator, out-of-range slice indexing)
  are modelled as `none`: `classify_matrix` returns `Option Classification`
  where `some c` is a normal return of the tagged value `c`.
-/

inductive TemporalType
  | Direct
  | Eventual
deriving DecidableEq, Fintype

inductive ExistentialType
  | Implication
  | Equivalence
  | NegatedEquivalence
  | Nand
  | Or
deriving DecidableEq, Fintype

/-- The part of the source `Dependency` record that classification reads:
`dependency_obj.temporal_dependency.map(|td| td.dependency_type)` and
`dependency_obj.existential_dependency.map(|ed| ed.dependency_type)`.
The `from`/`to` activities and the direction fields are never read by
`classification.rs` and are omitted. -/
structure Dependency where
  temporal_dependency : Option TemporalType
  existential_dependency : Option ExistentialType
deriving DecidableEq, Fintype

abbrev Activity := String

abbrev InputMatrix := List ((Activity × Activity) × Dependency)

inductive Classification
  | Structured
  | SemiStructured
  | LooselyStructured
  | StructuredSemiStructured
  | SemiStructuredLooselyStructured
  | Unstructured
  | Error (msg : String)
deriving DecidableEq

inductive RuleCategory
  | Structured
  | SemiStructured
  | LooselyStructured
deriving DecidableEq, Fintype

def category_to_classification : RuleCategory → Classification
  | RuleCategory.Structured => Classification.Structured
  | RuleCategory.SemiStructured => Classification.SemiStructured
  | RuleCategory.LooselyStructured => Classification.LooselyStructured

/-- Membership model of `HashSet<RuleCategory>`. -/
structure CatSet where
  hasS : Bool
  hasSS : Bool
  hasLS : Bool
deriving DecidableEq, Fintype

def CatSet.empty : CatSet := ⟨false, false, false⟩

def CatSet.insert (s : CatSet) : RuleCategory → CatSet
  | RuleCategory.Structured => { s with hasS := true }
  | RuleCategory.SemiStructured => { s with hasSS := true }
  | RuleCategory.LooselyStructured => { s with hasLS := true }

def CatSet.card (s : CatSet) : Nat :=
  (if s.hasS then 1 else 0) + (if s.hasSS then 1 else 0) + (if s.hasLS then 1 else 0)

/-- The singleton set containing exactly `c`. -/
def CatSet.single : RuleCategory → CatSet
  | RuleCategory.Structured => ⟨true, false, false⟩
  | RuleCategory.SemiStructured => ⟨false, true, false⟩
  | RuleCategory.LooselyStructured => ⟨false, false, true⟩

/-- Models `set.iter().next()`: the iteration order of the source
hash set is unspecified, but the source only consumes this when
`set.len() == 1`, where every order yields the unique element. -/
def CatSet.next? (s : CatSet) : Option RuleCategory :=
  if s.hasS then some RuleCategory.Structured
  else if s.hasSS then some RuleCategory.SemiStructured
  else if s.hasLS then some RuleCategory.LooselyStructured
  else none

/-- Per-entry increment condition of each counter in the aggregation loop
of `CalculatedPercentages::new` (lines 73 to 119 of the source); one
definition per counter, read off the `match` on
`(temporal_type, existential_type)`. -/
def counted_none_none (d : Dependency) : Bool :=
  match d.temporal_dependency, d.existential_dependency with
  | none, none => true
  | _, _ => false

def counted_none_implication (d : Dependency) : Bool :=
  match d.temporal_dependency, d.existential_dependency with
  | none, some ExistentialType.Implication => true
  | _, _ => false

def counted_none_equivalence (d : Dependency) : Bool :=
  match d.temporal_dependency, d.existential_dependency with
  | none, some ExistentialType.Equivalence => true
  | _, _ => false

def counted_none_negated_equivalence (d : Dependency) : Bool :=
  match d.temporal_dependency, d.existential_dependency with
  | none, some ExistentialType.NegatedEquivalence => true
  | _, _ => false

def counted_eventual_equivalence (d : Dependency) : Bool :=
  match d.temporal_dependency, d.existential_dependency with
  | some TemporalType.Eventual, some ExistentialType.Equivalence => true
  | _, _ => false

def counted_eventual_implication (d : Dependency) : Bool :=
  match d.temporal_dependency, d.existential_dependency with
  | some TemporalType.Eventual, some ExistentialType.Implication => true
  | _, _ => false

def counted_eventual_any (d : Dependency) : Bool :=
  match d.temporal_dependency, d.existential_dependency with
  | some TemporalType.Eventual, some _ => true
  | _, _ => false

def counted_direct_any (d : Dependency) : Bool :=
  match d.temporal_dependency, d.existential_dependency with
  | some TemporalType.Direct, some _ => true
  | _, _ => false

def counted_direct_none (d : Dependency) : Bool :=
  match d.temporal_dependency, d.existential_dependency with
  | some TemporalType.Direct, none => true
  | _, _ => false

structure CalculatedPercentages where
  none_none : ℚ
  none_implication : ℚ
  none_equivalence : ℚ
  eventual_equivalence : ℚ
  eventual_implication : ℚ
  none_negated_equivalence : ℚ
  eventual_any_existential : ℚ
  direct_any_existential : ℚ
  direct_none : ℚ
deriving DecidableEq

deriving instance DecidableEq for Except

/-- `CalculatedPercentages::new`: empty-matrix check, one pass of counting
(each counter counts the entries satisfying its increment condition),
then division of every counter by the total entry count. -/
def CalculatedPercentages.new (matrix : InputMatrix) : Except String CalculatedPercentages :=
  if matrix.isEmpty then
    Except.error ("Input matrix is empty")
  else
    let vals := matrix.map Prod.snd
    let total := matrix.length
    Except.ok {
      none_none := mkRat (vals.countP counted_none_none) total
      none_implication := mkRat (vals.countP counted_none_implication) total
      none_equivalence := mkRat (vals.countP counted_none_equivalence) total
      eventual_equivalence := mkRat (vals.countP counted_eventual_equivalence) total
      eventual_implication := mkRat (vals.countP counted_eventual_implication) total
      none_negated_equivalence := mkRat (vals.countP counted_none_negated_equivalence) total
      eventual_any_existential := mkRat (vals.countP counted_eventual_any) total
      direct_any_existential := mkRat (vals.countP counted_direct_any) total
      direct_none := mkRat (vals.countP counted_direct_none) total
    }

abbrev RuleCheckResult := Bool × List Bool

def check_rule_u1 (p : CalculatedPercentages) : Bool :=
  decide (p.none_none > mkRat 80 100) && decide (p.eventual_any_existential < mkRat 10 100)
    && decide (p.direct_any_existential < mkRat 10 100)

def check_rule_u2 (p : CalculatedPercentages) : Bool :=
  decide (p.none_equivalence > mkRat 80 100)

def check_rule_s1 (p : CalculatedPercentages) : RuleCheckResult :=
  let conds : List Bool := [
    decide (p.none_none < mkRat 5 100),
    decide (p.none_implication < mkRat 10 100),
    decide (p.eventual_equivalence > mkRat 10 100),
    decide (p.eventual_implication > mkRat 40 100)]
  (conds.all (fun c => c), conds)

def check_rule_s2 (p : CalculatedPercentages) : RuleCheckResult :=
  let conds : List Bool := [
    decide (p.none_none < mkRat 5 100),
    decide (p.none_implication ≤ mkRat 15 100),
    decide (p.eventual_equivalence ≥ mkRat 10 100),
    decide (p.eventual_implication > mkRat 30 100)]
  (conds.all (fun c => c), conds)

def check_rule_s3 (p : CalculatedPercentages) : RuleCheckResult :=
  let conds : List Bool := [decide (p.direct_none > mkRat 50 100)]
  (conds.all (fun c => c), conds)

def check_rule_ss1 (p : CalculatedPercentages) : RuleCheckResult :=
  let conds : List Bool := [
    decide (p.none_none < mkRat 35 100),
    decide (p.none_implication > mkRat 30 100),
    decide (p.eventual_equivalence < mkRat 5 100),
    decide (p.eventual_implication < mkRat 20 100)]
  (conds.all (fun c => c), conds)

def check_rule_ss2 (p : CalculatedPercentages) : RuleCheckResult :=
  let conds : List Bool := [
    decide (p.none_none < mkRat 25 100),
    decide (p.none_implication > mkRat 1 100),
    decide (p.eventual_equivalence > mkRat 10 100),
    decide (p.eventual_implication < mkRat 40 100)]
  (conds.all (fun c => c), conds)

def check_rule_ls1 (p : CalculatedPercentages) : RuleCheckResult :=
  let conds : List Bool := [
    decide (p.none_none > mkRat 20 100),
    decide (p.none_implication < mkRat 35 100),
    decide (p.eventual_equivalence < mkRat 10 100),
    decide (p.eventual_implication < mkRat 30 100)]
  (conds.all (fun c => c), conds)

def check_rule_ls2 (p : CalculatedPercentages) : RuleCheckResult :=
  let conds : List Bool := [
    decide (p.none_none > mkRat 50 100),
    decide (p.none_implication < mkRat 10 100),
    decide (p.eventual_equivalence < mkRat 5 100),
    decide (p.eventual_implication < mkRat 25 100)]
  (conds.all (fun c => c), conds)

def check_rule_bs1 (p : CalculatedPercentages) : RuleCheckResult :=
  let conds : List Bool := [
    decide (p.none_none < mkRat 10 100),
    decide (p.none_negated_equivalence > mkRat 50 100),
    decide (p.eventual_implication > mkRat 60 100)]
  (conds.all (fun c => c), conds)

def check_rule_bs2 (p : CalculatedPercentages) : RuleCheckResult :=
  let conds : List Bool := [
    decide (p.none_none < mkRat 20 100),
    decide (p.none_implication > mkRat 40 100)]
  (conds.all (fun c => c), conds)

def check_rule_bl1 (p : CalculatedPercentages) : RuleCheckResult :=
  let conds : List Bool := [
    decide (p.none_none > mkRat 60 100),
    decide (p.none_implication < mkRat 30 100)]
  (conds.all (fun c => c), conds)

/-- Sequential conditional inserts of `apply_primary_rules`, in source
order S1, S2, S3, SS1, SS2, LS1, LS2; the result list keeps that order. -/
def apply_primary_rules (p : CalculatedPercentages) : CatSet × List RuleCheckResult :=
  let s1_res := check_rule_s1 p
  let cats1 := if s1_res.1 then CatSet.empty.insert RuleCategory.Structured else CatSet.empty
  let s2_res := check_rule_s2 p
  let cats2 := if s2_res.1 then cats1.insert RuleCategory.Structured else cats1
  let s3_res := check_rule_s3 p
  let cats3 := if s3_res.1 then cats2.insert RuleCategory.Structured else cats2
  let ss1_res := check_rule_ss1 p
  let cats4 := if ss1_res.1 then cats3.insert RuleCategory.SemiStructured else cats3
  let ss2_res := check_rule_ss2 p
  let cats5 := if ss2_res.1 then cats4.insert RuleCategory.SemiStructured else cats4
  let ls1_res := check_rule_ls1 p
  let cats6 := if ls1_res.1 then cats5.insert RuleCategory.LooselyStructured else cats5
  let ls2_res := check_rule_ls2 p
  let cats7 := if ls2_res.1 then cats6.insert RuleCategory.LooselyStructured else cats6
  (cats7, [s1_res, s2_res, s3_res, ss1_res, ss2_res, ls1_res, ls2_res])

/-- Sequential conditional inserts of `apply_secondary_rules`, in source
order BS1, BS2, BL1; the result list keeps that order. -/
def apply_secondary_rules (p : CalculatedPercentages) : CatSet × List RuleCheckResult :=
  let bs1_res := check_rule_bs1 p
  let cats1 := if bs1_res.1 then CatSet.empty.insert RuleCategory.Structured else CatSet.empty
  let bs2_res := check_rule_bs2 p
  let cats2 := if bs2_res.1 then cats1.insert RuleCategory.SemiStructured else cats1
  let bl1_res := check_rule_bl1 p
  let cats3 := if bl1_res.1 then cats2.insert RuleCategory.LooselyStructured else cats2
  (cats3, [bs1_res, bs2_res, bl1_res])

def count_true_conditions (bools : List Bool) : Nat :=
  (bools.filter (fun b => b)).length

/-- Tail of `calculate_by_most_indicators` from line 390 of the source on:
the `scores` array, the max (`.max().copied().unwrap_or(0)` on naturals is
the fold of `max` from 0), the zero check, the filtered top categories and
the match on their number.  Factored out so that the fallback resolution
can be analysed as a function of the three scores. -/
def resolveScores (score_structured score_semi_structured score_loosely_structured : Nat) :
    Option Classification :=
  let scores : List (Nat × RuleCategory) := [
    (score_structured, RuleCategory.Structured),
    (score_semi_structured, RuleCategory.SemiStructured),
    (score_loosely_structured, RuleCategory.LooselyStructured)]
  let max_score := (scores.map Prod.fst).foldl max 0
  if max_score = 0 then
    some (Classification.Error ("No category had significant indicators."))
  else
    let top_categories := (scores.filter (fun sc => sc.1 == max_score)).map Prod.snd
    match top_categories.length with
    | 1 => (top_categories[0]?).map category_to_classification
    | 2 =>
      let has_s := top_categories.contains RuleCategory.Structured
      let has_ss := top_categories.contains RuleCategory.SemiStructured
      let has_ls := top_categories.contains RuleCategory.LooselyStructured
      if has_s && has_ss then some Classification.StructuredSemiStructured
      else if has_ss && has_ls then some Classification.SemiStructuredLooselyStructured
      else if has_s && has_ls then some Classification.SemiStructured
      else some (Classification.Error ("Unexpected combination in top categories (2)."))
    | 3 => some Classification.SemiStructured
    | _ => some (Classification.Error ("No category had a top score in most indicators (or internal error)."))

/-- `calculate_by_most_indicators`: the source reads the fixed indices 0
to 6 of the primary and 0 to 2 of the secondary rule-result slice, which
succeeds exactly when they hold at least 7 and 3 elements (destructured
here as cons patterns) and panics otherwise (modelled as `none`); then the
three indicator scores and the score resolution above. -/
def calculate_by_most_indicators (primary_rule_check_results secondary_rule_check_results :
    List RuleCheckResult) : Option Classification :=
  match primary_rule_check_results, secondary_rule_check_results with
  | s1 :: s2 :: s3 :: ss1 :: ss2 :: ls1 :: ls2 :: _, bs1 :: bs2 :: bl1 :: _ =>
    let score_structured :=
      (count_true_conditions s1.2 + count_true_conditions s2.2 + count_true_conditions s3.2) * 2
        + count_true_conditions bs1.2
    let score_semi_structured :=
      (count_true_conditions ss1.2 + count_true_conditions ss2.2) * 2
        + count_true_conditions bs2.2
    let score_loosely_structured :=
      (count_true_conditions ls1.2 + count_true_conditions ls2.2) * 2
        + count_true_conditions bl1.2
    resolveScores score_structured score_semi_structured score_loosely_structured
  | _, _ => none

/-- The part of `classify_matrix` after the primary tier did not return
(lines 513 to 538): the secondary-rule match on the set size, the single
secondary return guarded by the primary set being empty or larger than
one, and the indicator fallback. -/
def classify_after_primary (p : CalculatedPercentages) (prim : CatSet × List RuleCheckResult) :
    Option Classification :=
  let sec := apply_secondary_rules p
  if sec.1.card = 1 ∧ (prim.1.card = 0 ∨ prim.1.card > 1) then
    match sec.1.next? with
    | some category => some (category_to_classification category)
    | none => none
  else
    calculate_by_most_indicators prim.2 sec.2

/-- The body of `classify_matrix` after percentages were computed: the two
unstructured short-circuit rules, the match on the primary set size (0
falls through, 1 returns the unique category, otherwise the two adjacent
pairs return directly and everything else falls through). -/
def classify_percentages (p : CalculatedPercentages) : Option Classification :=
  if check_rule_u1 p then some Classification.Unstructured
  else if check_rule_u2 p then some Classification.Unstructured
  else
    let prim := apply_primary_rules p
    match prim.1.card with
    | 0 => classify_after_primary p prim
    | 1 =>
      match prim.1.next? with
      | some category => some (category_to_classification category)
      | none => none
    | _ =>
      if prim.1.hasS && prim.1.hasSS && !prim.1.hasLS then
        some Classification.StructuredSemiStructured
      else if !prim.1.hasS && prim.1.hasSS && prim.1.hasLS then
        some Classification.SemiStructuredLooselyStructured
      else
        classify_after_primary p prim

/-- `classify_matrix`: percentages or the error classification, then the
tiered resolution; `some c` models a normal return of `c`, `none` models a
panic (which claim C9 shows never happens). -/
def classify_matrix (matrix : InputMatrix) : Option Classification :=
  match CalculatedPercentages.new matrix with
  | Except.error e => some (Classification.Error e)
  | Except.ok p => classify_percentages p

/-- Indicator score of the Structured category as a function of the
percentages: twice the true-condition counts of S1, S2, S3 plus the
true-condition count of BS1, exactly as computed in the fallback. -/
def score_structured_of (p : CalculatedPercentages) : Nat :=
  (count_true_conditions (check_rule_s1 p).2 + count_true_conditions (check_rule_s2 p).2
      + count_true_conditions (check_rule_s3 p).2) * 2
    + count_true_conditions (check_rule_bs1 p).2

/-- Indicator score of the SemiStructured category: twice the
true-condition counts of SS1, SS2 plus the true-condition count of BS2. -/
def score_semi_structured_of (p : CalculatedPercentages) : Nat :=
  (count_true_conditions (check_rule_ss1 p).2 + count_true_conditions (check_rule_ss2 p).2) * 2
    + count_true_conditions (check_rule_bs2 p).2

/-- Indicator score of the LooselyStructured category: twice the
true-condition counts of LS1, LS2 plus the true-condition count of BL1. -/
def score_loosely_structured_of (p : CalculatedPercentages) : Nat :=
  (count_true_conditions (check_rule_ls1 p).2 + count_true_conditions (check_rule_ls2 p).2) * 2
    + count_true_conditions (check_rule_bl1 p).2

/-- The Bool list whose entries state, in order, whether a given matrix
entry is counted by each of the nine counters of the aggregation pass. -/
def increment_flags (d : Dependency) : List Bool := [
  counted_none_none d,
  counted_none_implication d,
  counted_none_equivalence d,
  counted_none_negated_equivalence d,
  counted_eventual_equivalence d,
  counted_eventual_implication d,
  counted_eventual_any d,
  counted_direct_any d,
  counted_direct_none d]

lemma cbmi_apply (p : CalculatedPercentages) :
    calculate_by_most_indicators (apply_primary_rules p).2 (apply_secondary_rules p).2 =
      resolveScores (score_structured_of p) (score_semi_structured_of p)
        (score_loosely_structured_of p) := rfl

lemma classify_matrix_ok {m : InputMatrix} {p : CalculatedPercentages}
    (hnew : CalculatedPercentages.new m = Except.ok p) :
    classify_matrix m = classify_percentages p := by
  unfold classify_matrix
  rw [hnew]

lemma resolveScores_strict_s {a b c : Nat} (hb : b < a) (hc : c < a) :
    resolveScores a b c = some Classification.Structured := by
  have hmax : max (max (max 0 a) b) c = a := by omega
  have ha : ¬ (a = 0) := by omega
  have hba : (b == a) = false := by simp [Nat.ne_of_lt hb]
  have hca : (c == a) = false := by simp [Nat.ne_of_lt hc]
  unfold resolveScores
  simp only [List.map_cons, List.map_nil, List.foldl_cons, List.foldl_nil, hmax]
  rw [if_neg ha]
  simp only [List.filter_cons, List.filter_nil, beq_self_eq_true, hba, hca, if_true, if_false,
    List.map_cons, List.map_nil, List.length_cons, List.length_nil]
  rfl

lemma resolveScores_strict_ss {a b c : Nat} (ha : a < b) (hc : c < b) :
    resolveScores a b c = some Classification.SemiStructured := by
  have hmax : max (max (max 0 a) b) c = b := by omega
  have hb : ¬ (b = 0) := by omega
  have hab : (a == b) = false := by simp [Nat.ne_of_lt ha]
  have hcb : (c == b) = false := by simp [Nat.ne_of_lt hc]
  unfold resolveScores
  simp only [List.map_cons, List.map_nil, List.foldl_cons, List.foldl_nil, hmax]
  rw [if_neg hb]
  simp only [List.filter_cons, List.filter_nil, beq_self_eq_true, hab, hcb, if_true, if_false,
    List.map_cons, List.map_nil, List.length_cons, List.length_nil]
  rfl

lemma resolveScores_strict_ls {a b c : Nat} (ha : a < c) (hb : b < c) :
    resolveScores a b c = some Classification.LooselyStructured := by
  have hmax : max (max (max 0 a) b) c = c := by omega
  have hc : ¬ (c = 0) := by omega
  have hac : (a == c) = false := by simp [Nat.ne_of_lt ha]
  have hbc : (b == c) = false := by simp [Nat.ne_of_lt hb]
  unfold resolveScores
  simp only [List.map_cons, List.map_nil, List.foldl_cons, List.foldl_nil, hmax]
  rw [if_neg hc]
  simp only [List.filter_cons, List.filter_nil, beq_self_eq_true, hac, hbc, if_true, if_false,
    List.map_cons, List.map_nil, List.length_cons, List.length_nil]
  rfl

lemma resolveScores_tie_s_ss {a b c : Nat} (hab : a = b) (hc : c < a) :
    resolveScores a b c = some Classification.StructuredSemiStructured := by
  have hmax : max (max (max 0 a) b) c = a := by omega
  have ha : ¬ (a = 0) := by omega
  have hba : (b == a) = true := by simp [hab]
  have hca : (c == a) = false := by simp [Nat.ne_of_lt hc]
  unfold resolveScores
  simp only [List.map_cons, List.map_nil, List.foldl_cons, List.foldl_nil, hmax]
  rw [if_neg ha]
  simp only [List.filter_cons, List.filter_nil, beq_self_eq_true, hba, hca, if_true, if_false,
    List.map_cons, List.map_nil, List.length_cons, List.length_nil]
  rfl

lemma resolveScores_tie_ss_ls {a b c : Nat} (hbc : b = c) (ha : a < b) :
    resolveScores a b c = some Classification.SemiStructuredLooselyStructured := by
  have hmax : max (max (max 0 a) b) c = b := by omega
  have hb : ¬ (b = 0) := by omega
  have hab : (a == b) = false := by simp [Nat.ne_of_lt ha]
  have hcb : (c == b) = true := by simp [hbc]
  unfold resolveScores
  simp only [List.map_cons, List.map_nil, List.foldl_cons, List.foldl_nil, hmax]
  rw [if_neg hb]
  simp only [List.filter_cons, List.filter_nil, beq_self_eq_true, hab, hcb, if_true, if_false,
    List.map_cons, List.map_nil, List.length_cons, List.length_nil]
  rfl

lemma resolveScores_tie_s_ls {a b c : Nat} (hac : a = c) (hb : b < a) :
    resolveScores a b c = some Classification.SemiStructured := by
  have hmax : max (max (max 0 a) b) c = a := by omega
  have ha : ¬ (a = 0) := by omega
  have hba : (b == a) = false := by simp [Nat.ne_of_lt hb]
  have hca : (c == a) = true := by simp [hac.symm]
  unfold resolveScores
  simp only [List.map_cons, List.map_nil, List.foldl_cons, List.foldl_nil, hmax]
  rw [if_neg ha]
  simp only [List.filter_cons, List.filter_nil, beq_self_eq_true, hba, hca, if_true, if_false,
    List.map_cons, List.map_nil, List.length_cons, List.length_nil]
  rfl

lemma resolveScores_tie_all {a b c : Nat} (hab : a = b) (hbc : b = c) (h0 : 0 < a) :
    resolveScores a b c = some Classification.SemiStructured := by
  have hmax : max (max (max 0 a) b) c = a := by omega
  have ha : ¬ (a = 0) := by omega
  have hba : (b == a) = true := by simp [hab]
  have hca : (c == a) = true := by simp [hab ▸ hbc.symm]
  unfold resolveScores
  simp only [List.map_cons, List.map_nil, List.foldl_cons, List.foldl_nil, hmax]
  rw [if_neg ha]
  simp only [List.filter_cons, List.filter_nil, beq_self_eq_true, hba, hca, if_true, if_false,
    List.map_cons, List.map_nil, List.length_cons, List.length_nil]
  try rfl

lemma resolveScores_zero :
    resolveScores 0 0 0 = some (Classification.Error ("No category had significant indicators.")) :=
  rfl

lemma resolveScores_shape (a b c : Nat) :
    ∃ r, resolveScores a b c = some r ∧
      (r = Classification.Structured ∨ r = Classification.SemiStructured ∨
       r = Classification.LooselyStructured ∨ r = Classification.StructuredSemiStructured ∨
       r = Classification.SemiStructuredLooselyStructured ∨
       r = Classification.Error ("No category had significant indicators.")) := by
  by_cases hab : a = b
  · by_cases hbc : b = c
    · by_cases h0 : a = 0
      · refine ⟨Classification.Error ("No category had significant indicators."), ?_, by tauto⟩
        have hb0 : b = 0 := by omega
        have hc0 : c = 0 := by omega
        rw [h0, hb0, hc0, resolveScores_zero]
      · exact ⟨_, resolveScores_tie_all hab hbc (by omega), by tauto⟩
    · rcases Nat.lt_or_ge b c with h | h
      · exact ⟨_, resolveScores_strict_ls (by omega) h, by tauto⟩
      · exact ⟨_, resolveScores_tie_s_ss hab (by omega), by tauto⟩
  · rcases Nat.lt_or_ge a b with h | h
    · by_cases hbc : b = c
      · exact ⟨_, resolveScores_tie_ss_ls hbc h, by tauto⟩
      · rcases Nat.lt_or_ge b c with h2 | h2
        · exact ⟨_, resolveScores_strict_ls (by omega) h2, by tauto⟩
        · exact ⟨_, resolveScores_strict_ss h (by omega), by tauto⟩
    · by_cases hac : a = c
      · exact ⟨_, resolveScores_tie_s_ls hac (by omega), by tauto⟩
      · rcases Nat.lt_or_ge a c with h2 | h2
        · exact ⟨_, resolveScores_strict_ls h2 (by omega), by tauto⟩
        · exact ⟨_, resolveScores_strict_s (by omega) (by omega), by tauto⟩

lemma classify_percentages_fallthrough {p : CalculatedPercentages}
    (hu1 : check_rule_u1 p = false) (hu2 : check_rule_u2 p = false)
    (hM : (apply_primary_rules p).1 = ⟨false, false, false⟩ ∨
          (apply_primary_rules p).1 = ⟨true, false, true⟩ ∨
          (apply_primary_rules p).1 = ⟨true, true, true⟩) :
    classify_percentages p = classify_after_primary p (apply_primary_rules p) := by
  unfold classify_percentages
  rcases hM with h | h | h <;>
    simp only [hu1, hu2, Bool.false_eq_true, if_false, h, CatSet.card] <;> rfl

lemma classify_percentages_single {p : CalculatedPercentages} (c : RuleCategory)
    (hu1 : check_rule_u1 p = false) (hu2 : check_rule_u2 p = false)
    (hM : (apply_primary_rules p).1 = CatSet.single c) :
    classify_percentages p = some (category_to_classification c) := by
  unfold classify_percentages
  cases c <;>
    simp only [hu1, hu2, Bool.false_eq_true, if_false, hM, CatSet.single, CatSet.card] <;> rfl

lemma classify_percentages_pair_s_ss {p : CalculatedPercentages}
    (hu1 : check_rule_u1 p = false) (hu2 : check_rule_u2 p = false)
    (hM : (apply_primary_rules p).1 = ⟨true, true, false⟩) :
    classify_percentages p = some Classification.StructuredSemiStructured := by
  unfold classify_percentages
  simp only [hu1, hu2, Bool.false_eq_true, if_false, hM, CatSet.card]
  rfl

lemma classify_percentages_pair_ss_ls {p : CalculatedPercentages}
    (hu1 : check_rule_u1 p = false) (hu2 : check_rule_u2 p = false)
    (hM : (apply_primary_rules p).1 = ⟨false, true, true⟩) :
    classify_percentages p = some Classification.SemiStructuredLooselyStructured := by
  unfold classify_percentages
  simp only [hu1, hu2, Bool.false_eq_true, if_false, hM, CatSet.card]
  rfl

lemma classify_after_primary_single {p : CalculatedPercentages}
    {prim : CatSet × List RuleCheckResult} (c : RuleCategory)
    (hsec : (apply_secondary_rules p).1 = CatSet.single c)
    (hprim : prim.1.card = 0 ∨ prim.1.card > 1) :
    classify_after_primary p prim = some (category_to_classification c) := by
  have h1 : (CatSet.single c).card = 1 := by cases c <;> rfl
  unfold classify_after_primary
  simp only [hsec]
  rw [if_pos ⟨h1, hprim⟩]
  cases c <;> rfl

lemma classify_after_primary_fallback {p : CalculatedPercentages}
    {prim : CatSet × List RuleCheckResult}
    (hsec : (apply_secondary_rules p).1.card = 0 ∨ 2 ≤ (apply_secondary_rules p).1.card) :
    classify_after_primary p prim =
      calculate_by_most_indicators prim.2 (apply_secondary_rules p).2 := by
  unfold classify_after_primary
  rw [if_neg]
  intro h
  omega

def mkEntries (tag : String) (n : Nat) (d : Dependency) : InputMatrix :=
  (List.range n).map (fun i => ((tag ++ Nat.repr i, tag), d))

def depNN : Dependency := ⟨none, none⟩

def depNI : Dependency := ⟨none, some ExistentialType.Implication⟩

def depNNEq : Dependency := ⟨none, some ExistentialType.NegatedEquivalence⟩

def depDN : Dependency := ⟨some TemporalType.Direct, none⟩

def depEI : Dependency := ⟨some TemporalType.Eventual, some ExistentialType.Implication⟩

def depEEq : Dependency := ⟨some TemporalType.Eventual, some ExistentialType.Equivalence⟩

def m_c1 : InputMatrix :=
  mkEntries ("ni") 1 depNI ++ mkEntries ("eeq") 3 depEEq ++ mkEntries ("ei") 7 depEI ++
    mkEntries ("dn") 9 depDN

def p_c1 : CalculatedPercentages :=
  ⟨0, mkRat 1 20, 0, mkRat 3 20, mkRat 7 20, 0, mkRat 10 20, 0, mkRat 9 20⟩

/-- C1: when neither short-circuit rule fires, the primary tier returns
the unique matched category if exactly one of the three categories has a
passing rule, the compound categories for the matched pairs
Structured+SemiStructured and SemiStructured+LooselyStructured, and for
the pair Structured+LooselyStructured, all three matched, or none matched
it returns nothing and falls through to the secondary tier. -/
theorem primary_tier_resolution (m : InputMatrix) (p : CalculatedPercentages)
    (hnew : CalculatedPercentages.new m = Except.ok p)
    (hu1 : check_rule_u1 p = false) (hu2 : check_rule_u2 p = false) :
    (∀ c : RuleCategory, (apply_primary_rules p).1 = CatSet.single c →
      classify_matrix m = some (category_to_classification c)) ∧
    ((apply_primary_rules p).1 = ⟨true, true, false⟩ →
      classify_matrix m = some Classification.StructuredSemiStructured) ∧
    ((apply_primary_rules p).1 = ⟨false, true, true⟩ →
      classify_matrix m = some Classification.SemiStructuredLooselyStructured) ∧
    ((apply_primary_rules p).1 = ⟨true, false, true⟩ ∨
        (apply_primary_rules p).1 = ⟨true, true, true⟩ ∨
        (apply_primary_rules p).1 = ⟨false, false, false⟩ →
      classify_matrix m = classify_after_primary p (apply_primary_rules p)) := by
  rw [classify_matrix_ok hnew]
  refine ⟨?_, ?_, ?_, ?_⟩
  · intro c h
    exact classify_percentages_single c hu1 hu2 h
  · intro h
    exact classify_percentages_pair_s_ss hu1 hu2 h
  · intro h
    exact classify_percentages_pair_ss_ls hu1 hu2 h
  · intro h
    exact classify_percentages_fallthrough hu1 hu2 (by tauto)

/-- Witness for C1: a 20-entry matrix matching S2 and SS2 (and no other
primary rule) is classified StructuredSemiStructured. -/
theorem primary_tier_resolution_witness :
    classify_matrix m_c1 = some Classification.StructuredSemiStructured :=
  (primary_tier_resolution m_c1 p_c1 (by decide) (by decide) (by decide)).2.1 (by decide)

def m_c2 : InputMatrix :=
  mkEntries ("nn") 3 depNN ++ mkEntries ("ni") 5 depNI ++ mkEntries ("eeq") 3 depEEq ++
    mkEntries ("ei") 9 depEI

def p_c2 : CalculatedPercentages :=
  ⟨mkRat 3 20, mkRat 5 20, 0, mkRat 3 20, mkRat 9 20, 0, mkRat 12 20, 0, 0⟩

/-- C2: for a matrix that reaches the indicator fallback (short-circuit
rules off, no unique primary result, no single secondary rule), the
classification follows the indicator scores of the three categories:
a strictly highest score returns its category, the three two-way ties
return StructuredSemiStructured, SemiStructuredLooselyStructured and
plain SemiStructured respectively, a three-way positive tie returns
SemiStructured, and all-zero scores return the error classification. -/
theorem fallback_indicator_scoring (m : InputMatrix) (p : CalculatedPercentages)
    (hnew : CalculatedPercentages.new m = Except.ok p)
    (hu1 : check_rule_u1 p = false) (hu2 : check_rule_u2 p = false)
    (hM : (apply_primary_rules p).1 = ⟨false, false, false⟩ ∨
        (apply_primary_rules p).1 = ⟨true, false, true⟩ ∨
        (apply_primary_rules p).1 = ⟨true, true, true⟩)
    (hsec : (apply_secondary_rules p).1.card = 0 ∨ 2 ≤ (apply_secondary_rules p).1.card) :
    (score_semi_structured_of p < score_structured_of p ∧
        score_loosely_structured_of p < score_structured_of p →
      classify_matrix m = some Classification.Structured) ∧
    (score_structured_of p < score_semi_structured_of p ∧
        score_loosely_structured_of p < score_semi_structured_of p →
      classify_matrix m = some Classification.SemiStructured) ∧
    (score_structured_of p < score_loosely_structured_of p ∧
        score_semi_structured_of p < score_loosely_structured_of p →
      classify_matrix m = some Classification.LooselyStructured) ∧
    (score_structured_of p = score_semi_structured_of p ∧
        score_loosely_structured_of p < score_structured_of p →
      classify_matrix m = some Classification.StructuredSemiStructured) ∧
    (score_semi_structured_of p = score_loosely_structured_of p ∧
        score_structured_of p < score_semi_structured_of p →
      classify_matrix m = some Classification.SemiStructuredLooselyStructured) ∧
    (score_structured_of p = score_loosely_structured_of p ∧
        score_semi_structured_of p < score_structured_of p →
      classify_matrix m = some Classification.SemiStructured) ∧
    (score_structured_of p = score_semi_structured_of p ∧
        score_semi_structured_of p = score_loosely_structured_of p ∧
        0 < score_structured_of p →
      classify_matrix m = some Classification.SemiStructured) ∧
    (score_structured_of p = 0 ∧ score_semi_structured_of p = 0 ∧
        score_loosely_structured_of p = 0 →
      classify_matrix m = some (Classification.Error ("No category had significant indicators."))) := by
  have hcm : classify_matrix m = resolveScores (score_structured_of p)
      (score_semi_structured_of p) (score_loosely_structured_of p) := by
    rw [classify_matrix_ok hnew, classify_percentages_fallthrough hu1 hu2 hM,
      classify_after_primary_fallback hsec, cbmi_apply]
  refine ⟨?_, ?_, ?_, ?_, ?_, ?_, ?_, ?_⟩ <;> intro h <;> rw [hcm]
  · exact resolveScores_strict_s h.1 h.2
  · exact resolveScores_strict_ss h.1 h.2
  · exact resolveScores_strict_ls h.1 h.2
  · exact resolveScores_tie_s_ss h.1 h.2
  · exact resolveScores_tie_ss_ls h.1 h.2
  · exact resolveScores_tie_s_ls h.1 h.2
  · exact resolveScores_tie_all h.1 h.2.1 h.2.2
  · rw [h.1, h.2.1, h.2.2]
    exact resolveScores_zero

/-- Witness for C2: a 20-entry matrix reaching the fallback with scores
8, 9 and 3 is classified SemiStructured by the strict highest score. -/
theorem fallback_indicator_scoring_witness :
    classify_matrix m_c2 = some Classification.SemiStructured :=
  (fallback_indicator_scoring m_c2 p_c2 (by decide) (by decide) (by decide)
    (Or.inl (by decide)) (Or.inl (by decide))).2.1 ⟨by decide, by decide⟩

def m_c4 : InputMatrix := mkEntries ("nn") 1 depNN

def p_c4 : CalculatedPercentages := ⟨1, 0, 0, 0, 0, 0, 0, 0, 0⟩

/-- C4: if the ratio vector of a matrix satisfies U1 or U2, the
classification is Unstructured no matter what every other rule says. -/
theorem unstructured_override (m : InputMatrix) (p : CalculatedPercentages)
    (hnew : CalculatedPercentages.new m = Except.ok p)
    (hu : check_rule_u1 p = true ∨ check_rule_u2 p = true) :
    classify_matrix m = some Classification.Unstructured := by
  rw [classify_matrix_ok hnew]
  unfold classify_percentages
  rcases hu with h | h
  · rw [if_pos h]
  · by_cases h1 : check_rule_u1 p = true
    · rw [if_pos h1]
    · rw [if_neg h1, if_pos h]

/-- Witness for C4: a single entry with no relations gives none_none = 1,
satisfying U1, and the matrix is classified Unstructured. -/
theorem unstructured_override_witness :
    classify_matrix m_c4 = some Classification.Unstructured :=
  unstructured_override m_c4 p_c4 (by decide) (Or.inl (by decide))

def m_c5 : InputMatrix :=
  mkEntries ("nn") 3 depNN ++ mkEntries ("ni") 9 depNI ++ mkEntries ("eeq") 2 depEEq ++
    mkEntries ("nneq") 6 depNNEq

def p_c5 : CalculatedPercentages :=
  ⟨mkRat 3 20, mkRat 9 20, 0, mkRat 2 20, 0, mkRat 6 20, mkRat 2 20, 0, 0⟩

/-- C5: when the primary tier produced no unique result, a uniquely
matching secondary rule decides the category; with zero or several
matching secondary rules the classification falls through to the
indicator fallback. -/
theorem secondary_tier_resolution (m : InputMatrix) (p : CalculatedPercentages)
    (hnew : CalculatedPercentages.new m = Except.ok p)
    (hu1 : check_rule_u1 p = false) (hu2 : check_rule_u2 p = false)
    (hM : (apply_primary_rules p).1 = ⟨false, false, false⟩ ∨
        (apply_primary_rules p).1 = ⟨true, false, true⟩ ∨
        (apply_primary_rules p).1 = ⟨true, true, true⟩) :
    (∀ c : RuleCategory, (apply_secondary_rules p).1 = CatSet.single c →
      classify_matrix m = some (category_to_classification c)) ∧
    ((apply_secondary_rules p).1.card = 0 ∨ 2 ≤ (apply_secondary_rules p).1.card →
      classify_matrix m =
        calculate_by_most_indicators (apply_primary_rules p).2 (apply_secondary_rules p).2) := by
  rw [classify_matrix_ok hnew, classify_percentages_fallthrough hu1 hu2 hM]
  constructor
  · intro c h
    refine classify_after_primary_single c h ?_
    rcases hM with h2 | h2 | h2 <;> rw [h2] <;> decide
  · intro h
    exact classify_after_primary_fallback h

/-- Witness for C5: a 20-entry matrix where no primary rule passes and
exactly BS2 passes is classified SemiStructured by the secondary tier. -/
theorem secondary_tier_resolution_witness :
    classify_matrix m_c5 = some Classification.SemiStructured :=
  (secondary_tier_resolution m_c5 p_c5 (by decide) (by decide) (by decide)
    (Or.inl (by decide))).1 RuleCategory.SemiStructured (by decide)

def depEventualEquivalence : Dependency :=
  ⟨some TemporalType.Eventual, some ExistentialType.Equivalence⟩

def depEventualNone : Dependency := ⟨some TemporalType.Eventual, none⟩

/-- Counterexample for C3: the entry with an Eventual temporal relation
and an Equivalence existential relation is counted by two of the nine
counters (eventual_equivalence and eventual_any_existential), and the
entry with an Eventual temporal relation and no existential relation is
counted by none, although neither is a Nand/Or entry without temporal
relation; the claim that every other entry increments exactly one counter
fails on both. -/
theorem aggregation_double_increment :
    count_true_conditions (increment_flags depEventualEquivalence) = 2 ∧
    counted_eventual_equivalence depEventualEquivalence = true ∧
    counted_eventual_any depEventualEquivalence = true ∧
    count_true_conditions (increment_flags depEventualNone) = 0 ∧
    depEventualEquivalence.temporal_dependency ≠ none ∧
    depEventualNone.temporal_dependency ≠ none := by decide

/-- C3 (amended): each matrix entry is counted by none of the nine
counters when it has no temporal relation and a Nand or Or existential
relation, by none when it has an Eventual temporal relation and no
existential relation, by exactly two counters (the specific one and
eventual_any_existential) when it has an Eventual temporal relation with
an Implication or Equivalence existential relation, and by exactly one
counter in every other case. -/
theorem aggregation_increment_counts :
    ∀ d : Dependency,
      count_true_conditions (increment_flags d) =
        if d.temporal_dependency = none ∧
            (d.existential_dependency = some ExistentialType.Nand ∨
             d.existential_dependency = some ExistentialType.Or) then 0
        else if d.temporal_dependency = some TemporalType.Eventual ∧
            d.existential_dependency = none then 0
        else if d.temporal_dependency = some TemporalType.Eventual ∧
            (d.existential_dependency = some ExistentialType.Implication ∨
             d.existential_dependency = some ExistentialType.Equivalence) then 2
        else 1 := by decide

def m_c6 : InputMatrix := mkEntries ("x") 1 depNN

/-- C6: the empty matrix is classified with the empty-matrix error and
CalculatedPercentages.new fails on it, while every non-empty matrix gets
a ratio vector. -/
theorem empty_matrix_error (m : InputMatrix) :
    (m = [] →
      classify_matrix m = some (Classification.Error ("Input matrix is empty")) ∧
      CalculatedPercentages.new m = Except.error ("Input matrix is empty")) ∧
    (m ≠ [] → ∃ p, CalculatedPercentages.new m = Except.ok p) := by
  constructor
  · intro h
    subst h
    exact ⟨rfl, rfl⟩
  · intro h
    obtain ⟨x, xs, rfl⟩ : ∃ x xs, m = x :: xs := by
      cases m
      · exact absurd rfl h
      · exact ⟨_, _, rfl⟩
    exact ⟨_, rfl⟩

/-- Witness for C6: both branches at concrete inputs, the empty matrix
and a one-entry matrix. -/
theorem empty_matrix_error_witness :
    (classify_matrix ([] : InputMatrix) = some (Classification.Error ("Input matrix is empty")) ∧
      CalculatedPercentages.new ([] : InputMatrix) = Except.error ("Input matrix is empty")) ∧
    (∃ p, CalculatedPercentages.new m_c6 = Except.ok p) :=
  ⟨(empty_matrix_error []).1 rfl, (empty_matrix_error m_c6).2 (by decide)⟩

def m_c7a : InputMatrix :=
  mkEntries ("eeq") 3 depEEq ++ mkEntries ("ei") 9 depEI ++ mkEntries ("dn") 8 depDN

def p_c7a : CalculatedPercentages :=
  ⟨0, 0, 0, mkRat 3 20, mkRat 9 20, 0, mkRat 12 20, 0, mkRat 8 20⟩

def m_c7b : InputMatrix :=
  mkEntries ("eeq") 3 depEEq ++ mkEntries ("ei") 7 depEI ++ mkEntries ("dn") 10 depDN

def p_c7b : CalculatedPercentages :=
  ⟨0, 0, 0, mkRat 3 20, mkRat 7 20, 0, mkRat 10 20, 0, mkRat 10 20⟩

/-- Counterexample for C7: two matrices with different sets of
individually matched rules (S1 and S2 pass on the first, only S2 on the
second) receive identical classification outputs, so the output of
classify_matrix cannot include the list of matched rule names. -/
theorem matched_rules_not_in_output :
    classify_matrix m_c7a = classify_matrix m_c7b ∧
    ¬ ((apply_primary_rules p_c7a).2.map Prod.fst =
        (apply_primary_rules p_c7b).2.map Prod.fst) ∧
    CalculatedPercentages.new m_c7a = Except.ok p_c7a ∧
    CalculatedPercentages.new m_c7b = Except.ok p_c7b := by decide

/-- C7 (amended): the classification output is the final Classification
value alone; no list of matched rule names accompanies it, as inputs with
different matched rules (S1 passes on the first input only) can produce
the same output. -/
theorem output_category_only :
    (∃ c, classify_matrix m_c7a = some c ∧ classify_matrix m_c7b = some c) ∧
    (check_rule_s1 p_c7a).1 = true ∧ (check_rule_s1 p_c7b).1 = false ∧
    CalculatedPercentages.new m_c7a = Except.ok p_c7a ∧
    CalculatedPercentages.new m_c7b = Except.ok p_c7b :=
  ⟨⟨Classification.Structured, by decide, by decide⟩, by decide, by decide, by decide, by decide⟩

/-- C8: classification is a pure function of the entry multiset: any
permutation of the matrix entries yields the same ratio vector and the
same classification, and re-classifying the same matrix trivially yields
the same result. -/
theorem classification_order_independent (m1 m2 : InputMatrix) (hperm : m1.Perm m2) :
    CalculatedPercentages.new m1 = CalculatedPercentages.new m2 ∧
    classify_matrix m1 = classify_matrix m2 := by
  have hlen : m1.length = m2.length := hperm.length_eq
  have hvals : (m1.map Prod.snd).Perm (m2.map Prod.snd) := hperm.map Prod.snd
  have hie : m1.isEmpty = m2.isEmpty := by
    cases m1 <;> cases m2 <;> simp_all
  have hnew : CalculatedPercentages.new m1 = CalculatedPercentages.new m2 := by
    simp only [CalculatedPercentages.new]
    rw [hie, hlen, hvals.countP_eq counted_none_none, hvals.countP_eq counted_none_implication,
      hvals.countP_eq counted_none_equivalence, hvals.countP_eq counted_eventual_equivalence,
      hvals.countP_eq counted_eventual_implication,
      hvals.countP_eq counted_none_negated_equivalence, hvals.countP_eq counted_eventual_any,
      hvals.countP_eq counted_direct_any, hvals.countP_eq counted_direct_none]
  refine ⟨hnew, ?_⟩
  unfold classify_matrix
  rw [hnew]

def m_c8a : InputMatrix := [(("a", "b"), depNN), (("c", "d"), depEI)]

def m_c8b : InputMatrix := [(("c", "d"), depEI), (("a", "b"), depNN)]

/-- Witness for C8: swapping the two entries of a concrete matrix changes
neither the ratio vector nor the classification. -/
theorem classification_order_independent_witness :
    CalculatedPercentages.new m_c8a = CalculatedPercentages.new m_c8b ∧
    classify_matrix m_c8a = classify_matrix m_c8b :=
  classification_order_independent m_c8a m_c8b (List.Perm.swap _ _ _)

lemma classify_after_primary_total (p : CalculatedPercentages) :
    ∃ c, classify_after_primary p (apply_primary_rules p) = some c := by
  by_cases hc : (apply_secondary_rules p).1.card = 1
  · by_cases hp : (apply_primary_rules p).1.card = 0 ∨ (apply_primary_rules p).1.card > 1
    · have hnext : ∃ c, (apply_secondary_rules p).1.next? = some c := by
        revert hc
        rcases (apply_secondary_rules p).1 with ⟨a, b, d⟩
        cases a <;> cases b <;> cases d <;> decide
      rcases hnext with ⟨c, hcn⟩
      refine ⟨category_to_classification c, ?_⟩
      unfold classify_after_primary
      rw [if_pos ⟨hc, hp⟩, hcn]
    · unfold classify_after_primary
      rw [if_neg (fun h => hp h.2), cbmi_apply]
      exact (resolveScores_shape _ _ _).elim (fun r hr => ⟨r, hr.1⟩)
  · unfold classify_after_primary
    rw [if_neg (fun h => hc h.1), cbmi_apply]
    exact (resolveScores_shape _ _ _).elim (fun r hr => ⟨r, hr.1⟩)

lemma classify_percentages_total (p : CalculatedPercentages) :
    ∃ c, classify_percentages p = some c := by
  by_cases h1 : check_rule_u1 p = true
  · exact ⟨Classification.Unstructured, by unfold classify_percentages; rw [if_pos h1]⟩
  · by_cases h2 : check_rule_u2 p = true
    · exact ⟨Classification.Unstructured, by
        unfold classify_percentages; rw [if_neg h1, if_pos h2]⟩
    · have h1f : check_rule_u1 p = false := by simpa using h1
      have h2f : check_rule_u2 p = false := by simpa using h2
      rcases hset : (apply_primary_rules p).1 with ⟨s, ss, ls⟩
      cases s <;> cases ss <;> cases ls
      · exact (classify_after_primary_total p).imp (fun c hc => by
          rw [classify_percentages_fallthrough h1f h2f (Or.inl hset), hc])
      · exact ⟨_, classify_percentages_single RuleCategory.LooselyStructured h1f h2f hset⟩
      · exact ⟨_, classify_percentages_single RuleCategory.SemiStructured h1f h2f hset⟩
      · exact ⟨_, classify_percentages_pair_ss_ls h1f h2f hset⟩
      · exact ⟨_, classify_percentages_single RuleCategory.Structured h1f h2f hset⟩
      · exact (classify_after_primary_total p).imp (fun c hc => by
          rw [classify_percentages_fallthrough h1f h2f (Or.inr (Or.inl hset)), hc])
      · exact ⟨_, classify_percentages_pair_s_ss h1f h2f hset⟩
      · exact (classify_after_primary_total p).imp (fun c hc => by
          rw [classify_percentages_fallthrough h1f h2f (Or.inr (Or.inr hset)), hc])

/-- C9: on every input matrix the classification terminates normally
with a tagged Classification value; no panic path (the singleton unwraps
and the fixed-index reads of the rule-result vectors) is reachable. -/
theorem classification_total (m : InputMatrix) : ∃ c, classify_matrix m = some c := by
  cases hnew : CalculatedPercentages.new m with
  | error e => exact ⟨Classification.Error e, by unfold classify_matrix; rw [hnew]⟩
  | ok p =>
    rw [classify_matrix_ok hnew]
    exact classify_percentages_total p

/-- C10: on the rule results produced by the seven primary and three
secondary rules, the indicator fallback always returns one of the five
category outcomes or the all-scores-zero error; the defensive branches
for an unexpected two-category combination and for an unexpected number
of top categories are unreachable. -/
theorem fallback_defensive_branches_unreachable (p : CalculatedPercentages) :
    ∃ r, calculate_by_most_indicators (apply_primary_rules p).2 (apply_secondary_rules p).2 =
        some r ∧
      (r = Classification.Structured ∨ r = Classification.SemiStructured ∨
       r = Classification.LooselyStructured ∨ r = Classification.StructuredSemiStructured ∨
       r = Classification.SemiStructuredLooselyStructured ∨
       r = Classification.Error ("No category had significant indicators.")) := by
  rw [cbmi_apply]
  exact resolveScores_shape _ _ _
